import Mathlib

/-
Verification of the wgpu/winit starting template (src/main.rs).

Shallow embedding conventions:
- `u32` window dimensions are modelled as `Nat` (the program performs no
  size arithmetic, so overflow never occurs).
- `f64` color channels and cursor coordinates are modelled as `ℚ`;
  the only operation on them is division.
- External effects are made explicit: the presentation surface is modelled
  by the list of configurations passed to `surface.configure` (most recent
  first), `State::new` additionally returns the list of GPU resources it
  created, and the fallible external calls (surface creation, adapter and
  device requests, capability queries) are driven by an environment record.
- A Rust `panic!` (from `unwrap`/`expect`/out-of-bounds indexing) is a
  distinct outcome constructor, separate from the `Err` return path.
-/

namespace Wgpu

/-- Physical window size in pixels, winit `PhysicalSize<u32>`. -/
structure PhysicalSize where
  width : Nat
  height : Nat
  deriving DecidableEq, Repr

/-- RGBA color, wgpu `Color` (four `f64` channels, modelled as `ℚ`). -/
structure Color where
  r : ℚ
  g : ℚ
  b : ℚ
  a : ℚ
  deriving DecidableEq, Repr

/-- wgpu `Color::BLACK`. -/
def Color.BLACK : Color := { r := 0, g := 0, b := 0, a := 1 }

/-- A surface texture format: an identity plus its srgb-ness, the only
property `State::new` inspects. -/
structure SurfaceFormat where
  id : Nat
  is_srgb : Bool
  deriving DecidableEq, Repr

/-- wgpu `TextureUsages::RENDER_ATTACHMENT` bit. -/
def RENDER_ATTACHMENT : Nat := 16

/-- wgpu `SurfaceConfiguration` as built in `State::new`; present and alpha
modes are opaque numeric ids. -/
structure SurfaceConfiguration where
  usage : Nat
  format : SurfaceFormat
  width : Nat
  height : Nat
  present_mode : Nat
  alpha_mode : Nat
  view_formats : List SurfaceFormat
  desired_maximum_frame_latency : Nat
  deriving DecidableEq, Repr

/-- Model of the external presentation surface: the list of configurations
passed to `surface.configure`, most recent first. `State::new` never calls
`configure`, so the log starts empty. -/
abbrev SurfaceLog := List SurfaceConfiguration

/-- The `State` struct of src/main.rs. The opaque `device` and `queue`
handles carry no data read by any transition and are not modelled; the
`surface` handle is modelled by its configure log. -/
structure State where
  surface : SurfaceLog
  surface_config : SurfaceConfiguration
  size : PhysicalSize
  clear_color : Color
  deriving DecidableEq, Repr

/-- winit `ElementState`. -/
inductive ElementState
  | Pressed
  | Released
  deriving DecidableEq, Repr

/-- winit `KeyCode`, restricted to the one key the program matches on plus a
catch-all. -/
inductive KeyCode
  | Escape
  | OtherKey (code : Nat)
  deriving DecidableEq, Repr

/-- winit `PhysicalKey`. -/
inductive PhysicalKey
  | Code (k : KeyCode)
  | Unidentified (id : Nat)
  deriving DecidableEq, Repr

/-- winit `WindowEvent`, restricted to the variants the program matches on,
with a numbered catch-all for every other variant. -/
inductive WindowEvent
  | CloseRequested
  | KeyboardInput (key_state : ElementState) (physical_key : PhysicalKey)
  | Resized (physical_size : PhysicalSize)
  | RedrawRequested
  | CursorMoved (x : ℚ) (y : ℚ)
  | OtherEvent (tag : Nat)
  deriving DecidableEq, Repr

/-- wgpu `SurfaceError`. -/
inductive SurfaceError
  | Timeout
  | Outdated
  | Lost
  | OutOfMemory
  | Other
  deriving DecidableEq, Repr

/-- `State::resize` (src/main.rs lines 84–91): update the stored size and
the configuration dimensions and reconfigure the surface, but only when
both new dimensions are positive and the size actually changed. -/
def State.resize (s : State) (new_size : PhysicalSize) : State :=
  if new_size.width > 0 ∧ new_size.height > 0 ∧ s.size ≠ new_size then
    let surface_config :=
      { s.surface_config with width := new_size.width, height := new_size.height }
    { s with
        size := new_size
        surface_config := surface_config
        surface := surface_config :: s.surface }
  else
    s

/-- `State::input` (src/main.rs lines 93–107): on `CursorMoved` set the
clear color from the normalized cursor position and report the event
handled; on anything else do nothing and report it unhandled. -/
def State.input (s : State) (event : WindowEvent) : State × Bool :=
  match event with
  | .CursorMoved x y =>
      ({ s with clear_color :=
          { r := x / (s.size.width : ℚ)
            g := y / (s.size.height : ℚ)
            b := 1
            a := 1 } }, true)
  | _ => (s, false)

/-- `State::update` (src/main.rs lines 109–111): a no-op. -/
def State.update (s : State) : State := s

/-- `State::render` (src/main.rs lines 113–143): acquires a texture, records
one clear pass, submits and presents. It never writes any `State` field;
whether texture acquisition succeeds is decided by the GPU surface and is
passed in as the `acquire` oracle, propagated unchanged to the caller. -/
def State.render (s : State) (acquire : Except SurfaceError Unit) :
    State × Except SurfaceError Unit :=
  (s, acquire)

/-- GPU resources created during `State::new`, in creation order. -/
inductive GpuResource
  | gpuInstance
  | surface
  | adapter
  | device
  | queue
  deriving DecidableEq, Repr

/-- The GPU environment `State::new` runs against: whether each fallible
acquisition succeeds, and the surface capabilities the adapter reports. -/
structure GpuEnv where
  create_surface_ok : Bool
  request_adapter_ok : Bool
  request_device_ok : Bool
  caps_formats : List SurfaceFormat
  caps_present_modes : List Nat
  caps_alpha_modes : List Nat
  deriving DecidableEq, Repr

/-- Outcome of `State::new`: the `Ok` result, the early `Err` return, or a
process-aborting panic from an `unwrap` or an out-of-bounds index. -/
inductive NewOutcome
  | ok (s : State)
  | err (msg : String)
  | panicked (site : String)
  deriving DecidableEq, Repr

/-- `State::new` (src/main.rs lines 20–82), returning the outcome together
with the list of GPU resources created before that outcome. The zero-size
check happens before any resource is created; `create_surface`,
`request_adapter` and `request_device` are each `unwrap`ped (failure
panics); the format/present-mode/alpha-mode selections index `[0]`, which
panics on an empty capability list. -/
def State.new (window_inner_size : PhysicalSize) (env : GpuEnv) :
    NewOutcome × List GpuResource :=
  let size := window_inner_size
  if size.width = 0 ∨ size.height = 0 then
    (.err "Pencere boyutu sıfır olamaz.", [])
  else if ¬ env.create_surface_ok then
    (.panicked "create_surface unwrap", [GpuResource.gpuInstance])
  else if ¬ env.request_adapter_ok then
    (.panicked "request_adapter unwrap",
      [GpuResource.gpuInstance, GpuResource.surface])
  else if ¬ env.request_device_ok then
    (.panicked "request_device unwrap",
      [GpuResource.gpuInstance, GpuResource.surface, GpuResource.adapter])
  else
    let created :=
      [GpuResource.gpuInstance, GpuResource.surface, GpuResource.adapter,
        GpuResource.device, GpuResource.queue]
    match env.caps_formats, env.caps_present_modes, env.caps_alpha_modes with
    | f0 :: fs, p0 :: _, a0 :: _ =>
        let surface_format := ((f0 :: fs).find? (fun f => f.is_srgb)).getD f0
        let surface_config : SurfaceConfiguration :=
          { usage := RENDER_ATTACHMENT
            format := surface_format
            width := size.width
            height := size.height
            present_mode := p0
            alpha_mode := a0
            view_formats := []
            desired_maximum_frame_latency := 2 }
        let clear_color := Color.BLACK
        (.ok { surface := []
               surface_config := surface_config
               size := size
               clear_color := clear_color }, created)
    | _, _, _ => (.panicked "surface_caps index out of bounds", created)

/-- The OS window; only its inner size is observable to this program. -/
structure Window where
  inner_size : PhysicalSize
  deriving DecidableEq, Repr

/-- The `App` struct of src/main.rs: an optional window and an optional
render context. -/
structure App where
  window : Option Window
  state : Option State
  deriving DecidableEq, Repr

/-- `App::default`: both fields absent. -/
def App.default : App := { window := none, state := none }

/-- Externally observable actions of one handler invocation: event-loop
exit, `request_redraw`, and error/warning log emission. -/
structure Effects where
  exit : Bool
  redraw_requested : Bool
  error_logged : Bool
  warn_logged : Bool
  deriving DecidableEq, Repr

/-- No observable action. -/
def Effects.none : Effects :=
  { exit := false, redraw_requested := false
    error_logged := false, warn_logged := false }

/-- `App::window_event` (src/main.rs lines 185–231). The result of
`state.render()` inside the `RedrawRequested` arm is decided by the GPU
surface and supplied as the `render_result` oracle. -/
def App.window_event (app : App) (event : WindowEvent)
    (render_result : Except SurfaceError Unit) : App × Effects :=
  match app.state with
  | none =>
      match event with
      | .CloseRequested => (app, { Effects.none with exit := true, warn_logged := true })
      | _ => (app, Effects.none)
  | some st =>
      let (st, handled) := st.input event
      if handled then
        ({ app with state := some st }, Effects.none)
      else
        match event with
        | .CloseRequested =>
            ({ app with state := some st }, { Effects.none with exit := true })
        | .KeyboardInput .Pressed (.Code .Escape) =>
            ({ app with state := some st }, { Effects.none with exit := true })
        | .Resized physical_size =>
            ({ app with state := some (st.resize physical_size) }, Effects.none)
        | .RedrawRequested =>
            let redraw := app.window.isSome
            let st := st.update
            let (st, outcome) := st.render render_result
            match outcome with
            | .ok _ =>
                ({ app with state := some st },
                  { Effects.none with redraw_requested := redraw })
            | .error .Lost | .error .Outdated =>
                ({ app with state := some (st.resize st.size) },
                  { Effects.none with redraw_requested := redraw })
            | .error .OutOfMemory | .error .Other =>
                ({ app with state := some st },
                  { Effects.none with
                      redraw_requested := redraw,
                      exit := true,
                      error_logged := true })
            | .error .Timeout =>
                ({ app with state := some st },
                  { Effects.none with
                      redraw_requested := redraw,
                      warn_logged := true })
        | _ => ({ app with state := some st }, Effects.none)

/-- Environment for `App::resumed`: whether `create_window` succeeds, the
inner size the created window reports, and the GPU environment for
`State::new`. -/
structure ResumeEnv where
  create_window_ok : Bool
  window_inner_size : PhysicalSize
  gpu : GpuEnv
  deriving DecidableEq, Repr

/-- Outcome of `App::resumed`: a normal return with the new app state and
effects, or a process-aborting panic. -/
inductive ResumedOutcome
  | ok (app : App) (eff : Effects)
  | panicked (site : String)
  deriving DecidableEq, Repr

/-- `App::resumed` (src/main.rs lines 158–183): if no window exists yet,
create the window (`expect` panics on failure), then block on `State::new`;
on `Ok` store the state, on `Err` log and exit the event loop. If a window
already exists, only log. -/
def App.resumed (app : App) (env : ResumeEnv) : ResumedOutcome :=
  match app.window with
  | some _ => .ok app Effects.none
  | none =>
      if ¬ env.create_window_ok then
        .panicked "Pencere oluşturulamadı"
      else
        let window : Window := { inner_size := env.window_inner_size }
        let app := { app with window := some window }
        match State.new window.inner_size env.gpu with
        | (.ok st, _) => .ok { app with state := some st } Effects.none
        | (.err _, _) => .ok app { Effects.none with exit := true, error_logged := true }
        | (.panicked site, _) => .panicked site

/-- States reachable from a successful construction by any sequence of
`resize`, `input`, `update` and `render` operations. -/
inductive Reachable : State → Prop
  | base (size : PhysicalSize) (env : GpuEnv) (s : State) :
      (State.new size env).1 = NewOutcome.ok s → Reachable s
  | resize (s : State) (new_size : PhysicalSize) :
      Reachable s → Reachable (s.resize new_size)
  | input (s : State) (event : WindowEvent) :
      Reachable s → Reachable (s.input event).1
  | update (s : State) :
      Reachable s → Reachable s.update
  | render (s : State) (acquire : Except SurfaceError Unit) :
      Reachable s → Reachable (s.render acquire).1

/-- A GPU environment in which every acquisition succeeds and the adapter
reports one non-srgb and one srgb format. -/
def demoEnv : GpuEnv :=
  { create_surface_ok := true
    request_adapter_ok := true
    request_device_ok := true
    caps_formats := [{ id := 0, is_srgb := false }, { id := 1, is_srgb := true }]
    caps_present_modes := [0]
    caps_alpha_modes := [0] }

/-- The state `State::new` produces for an 800×600 window under `demoEnv`. -/
def demoState : State :=
  { surface := []
    surface_config :=
      { usage := RENDER_ATTACHMENT
        format := { id := 1, is_srgb := true }
        width := 800
        height := 600
        present_mode := 0
        alpha_mode := 0
        view_formats := []
        desired_maximum_frame_latency := 2 }
    size := { width := 800, height := 600 }
    clear_color := Color.BLACK }

/-- An app in the `Ready` state: window and render context both present. -/
def appReady : App :=
  { window := some { inner_size := { width := 800, height := 600 } }
    state := some demoState }

end Wgpu

namespace Wgpu

/-- Inversion of a successful `State::new`: the stored size is the window's
inner size and is positive in both dimensions, the surface configuration
carries the same dimensions, the clear color is black, and no configure
call has been issued yet. -/
theorem new_ok_inv (size : PhysicalSize) (env : GpuEnv) (s : State)
    (h : (State.new size env).1 = NewOutcome.ok s) :
    s.size = size ∧ 0 < size.width ∧ 0 < size.height ∧
    s.surface_config.width = size.width ∧ s.surface_config.height = size.height ∧
    s.clear_color = Color.BLACK ∧ s.surface = [] := by
  by_cases h0 : size.width = 0 ∨ size.height = 0
  · simp [State.new, h0] at h
  · have hw : 0 < size.width := Nat.pos_of_ne_zero (fun hc => h0 (Or.inl hc))
    have hh : 0 < size.height := Nat.pos_of_ne_zero (fun hc => h0 (Or.inr hc))
    simp only [State.new, h0, if_false] at h
    split at h
    · simp at h
    · split at h
      · simp at h
      · split at h
        · simp at h
        · split at h
          · simp only [] at h
            injection h with h
            subst h
            exact ⟨rfl, hw, hh, rfl, rfl, rfl, rfl⟩
          · simp at h

/-- Preservation of positive dimensions by `State::resize`. -/
theorem resize_size_pos (s : State) (ns : PhysicalSize)
    (hw : 0 < s.size.width) (hh : 0 < s.size.height) :
    0 < (s.resize ns).size.width ∧ 0 < (s.resize ns).size.height := by
  unfold State.resize
  split
  · next hc => exact ⟨hc.1, hc.2.1⟩
  · exact ⟨hw, hh⟩

/-- `State::input` never changes the stored size. -/
theorem input_size_eq (s : State) (e : WindowEvent) :
    ((s.input e).1).size = s.size := by
  cases e <;> rfl

/-- `State::input` never changes the surface configuration. -/
theorem input_config_eq (s : State) (e : WindowEvent) :
    ((s.input e).1).surface_config = s.surface_config := by
  cases e <;> rfl

/-- Preservation of the size/configuration dimension agreement by
`State::resize`. -/
theorem resize_config_agrees (s : State) (ns : PhysicalSize)
    (h : s.surface_config.width = s.size.width ∧
      s.surface_config.height = s.size.height) :
    (s.resize ns).surface_config.width = (s.resize ns).size.width ∧
    (s.resize ns).surface_config.height = (s.resize ns).size.height := by
  unfold State.resize
  split
  · exact ⟨rfl, rfl⟩
  · exact h

end Wgpu

namespace Wgpu

/-- C1: a resize to a target with both dimensions positive and different
from the current size updates the stored size and the configuration's
dimensions to the new values and issues exactly one surface configure call
(the new configuration is pushed onto the configure log); a resize to a
target with a zero dimension or equal to the current size changes nothing
(state, configuration and configure log all unchanged); resizing from
800×600 to 0×0 and then to 1024×768 leaves stored size and configuration
at 1024×768. -/
theorem resize_spec (s : State) (ns : PhysicalSize) :
    (0 < ns.width → 0 < ns.height → s.size ≠ ns →
      (s.resize ns).size = ns ∧
      (s.resize ns).surface_config.width = ns.width ∧
      (s.resize ns).surface_config.height = ns.height ∧
      (s.resize ns).surface = (s.resize ns).surface_config :: s.surface) ∧
    (ns.width = 0 ∨ ns.height = 0 ∨ s.size = ns → s.resize ns = s) ∧
    (s.size = { width := 800, height := 600 } →
      ((s.resize { width := 0, height := 0 }).resize
          { width := 1024, height := 768 }).size = { width := 1024, height := 768 } ∧
      ((s.resize { width := 0, height := 0 }).resize
          { width := 1024, height := 768 }).surface_config.width = 1024 ∧
      ((s.resize { width := 0, height := 0 }).resize
          { width := 1024, height := 768 }).surface_config.height = 768) := by
  have hnoop : ∀ t : PhysicalSize, t.width = 0 ∨ t.height = 0 ∨ s.size = t →
      s.resize t = s := by
    intro t hcase
    have hc : ¬(t.width > 0 ∧ t.height > 0 ∧ s.size ≠ t) := by
      rintro ⟨hw, hh, hne⟩
      rcases hcase with h | h | h
      · omega
      · omega
      · exact hne h
    unfold State.resize
    rw [if_neg hc]
  refine ⟨?_, hnoop ns, ?_⟩
  · intro hw hh hne
    unfold State.resize
    rw [if_pos ⟨hw, hh, hne⟩]
    exact ⟨rfl, rfl, rfl, rfl⟩
  · intro hsz
    have h1 : s.resize { width := 0, height := 0 } = s :=
      hnoop { width := 0, height := 0 } (Or.inl rfl)
    rw [h1]
    have hne : s.size ≠ { width := 1024, height := 768 } := by
      rw [hsz]; decide
    unfold State.resize
    rw [if_pos ⟨by decide, by decide, hne⟩]
    exact ⟨rfl, rfl, rfl⟩

/-- Witness for C1 at the 800×600 demo state: a genuine resize to
1024×768, a same-size no-op, and the 800×600 → 0×0 → 1024×768 sequence. -/
theorem resize_spec_witness :
    ((demoState.resize { width := 1024, height := 768 }).size
        = { width := 1024, height := 768 } ∧
      (demoState.resize { width := 1024, height := 768 }).surface_config.width = 1024 ∧
      (demoState.resize { width := 1024, height := 768 }).surface_config.height = 768 ∧
      (demoState.resize { width := 1024, height := 768 }).surface
        = (demoState.resize { width := 1024, height := 768 }).surface_config
            :: demoState.surface) ∧
    demoState.resize { width := 800, height := 600 } = demoState ∧
    (((demoState.resize { width := 0, height := 0 }).resize
        { width := 1024, height := 768 }).size = { width := 1024, height := 768 } ∧
      ((demoState.resize { width := 0, height := 0 }).resize
        { width := 1024, height := 768 }).surface_config.width = 1024 ∧
      ((demoState.resize { width := 0, height := 0 }).resize
        { width := 1024, height := 768 }).surface_config.height = 768) :=
  ⟨(resize_spec demoState { width := 1024, height := 768 }).1
      (by decide) (by decide) (by decide),
    (resize_spec demoState { width := 800, height := 600 }).2.1
      (Or.inr (Or.inr rfl)),
    (resize_spec demoState { width := 1024, height := 768 }).2.2 rfl⟩

/-- C2: a cursor-move to (x, y) sets the clear color to
(x / width, y / height, 1, 1) and is reported handled; every other event
kind leaves the state unchanged and is reported unhandled; at the center
of an 800×600 window the color is (1/2, 1/2, 1, 1). -/
theorem input_spec (s : State) (event : WindowEvent) :
    (∀ x y, event = WindowEvent.CursorMoved x y →
      s.input event =
        ({ s with clear_color :=
            { r := x / (s.size.width : ℚ)
              g := y / (s.size.height : ℚ)
              b := 1
              a := 1 } }, true)) ∧
    ((∀ x y, event ≠ WindowEvent.CursorMoved x y) → s.input event = (s, false)) ∧
    (s.size = { width := 800, height := 600 } →
      ((s.input (WindowEvent.CursorMoved 400 300)).1).clear_color =
        { r := 1/2, g := 1/2, b := 1, a := 1 }) := by
  refine ⟨?_, ?_, ?_⟩
  · intro x y he
    subst he
    rfl
  · intro hne
    cases event with
    | CloseRequested => rfl
    | KeyboardInput a b => rfl
    | Resized ps => rfl
    | RedrawRequested => rfl
    | CursorMoved x y => exact absurd rfl (hne x y)
    | OtherEvent t => rfl
  · intro hsz
    have hred : ((s.input (WindowEvent.CursorMoved 400 300)).1).clear_color =
        { r := 400 / (s.size.width : ℚ), g := 300 / (s.size.height : ℚ),
          b := 1, a := 1 } := rfl
    rw [hred, hsz]
    norm_num [Color.mk.injEq]

/-- Witness for C2 at the demo state: a cursor move to the window center, a
close request left unhandled, and the center color value. -/
theorem input_spec_witness :
    demoState.input (WindowEvent.CursorMoved 400 300) =
      ({ demoState with clear_color :=
          { r := 400 / (demoState.size.width : ℚ)
            g := 300 / (demoState.size.height : ℚ)
            b := 1
            a := 1 } }, true) ∧
    demoState.input WindowEvent.CloseRequested = (demoState, false) ∧
    ((demoState.input (WindowEvent.CursorMoved 400 300)).1).clear_color =
      { r := 1/2, g := 1/2, b := 1, a := 1 } :=
  ⟨(input_spec demoState (WindowEvent.CursorMoved 400 300)).1 400 300 rfl,
    (input_spec demoState WindowEvent.CloseRequested).2.1
      (fun _ _ h => WindowEvent.noConfusion h),
    (input_spec demoState (WindowEvent.CursorMoved 400 300)).2.2 rfl⟩

/-- C3: for a window with a zero dimension, `State::new` takes the early
error return, and its GPU resource creation list is empty: the failure
happens before any instance, surface, adapter, device or queue exists. -/
theorem new_zero_size_fails (size : PhysicalSize) (env : GpuEnv)
    (h : size.width = 0 ∨ size.height = 0) :
    State.new size env = (NewOutcome.err "Pencere boyutu sıfır olamaz.", []) := by
  simp only [State.new]
  rw [if_pos h]

/-- Witness for C3 at a 0×600 window. -/
theorem new_zero_size_fails_witness :
    State.new { width := 0, height := 600 } demoEnv =
      (NewOutcome.err "Pencere boyutu sıfır olamaz.", []) :=
  new_zero_size_fails { width := 0, height := 600 } demoEnv (Or.inl rfl)

/-- C8: every render-context state reachable from a successful construction
by any sequence of `resize`, `input`, `update` and `render` operations has
positive stored width and height; consequently the denominators of the two
divisions in the cursor-move handler are nonzero. -/
theorem reachable_size_positive (s : State) (h : Reachable s) :
    (0 < s.size.width ∧ 0 < s.size.height) ∧
    ((s.size.width : ℚ) ≠ 0 ∧ (s.size.height : ℚ) ≠ 0) := by
  have key : 0 < s.size.width ∧ 0 < s.size.height := by
    induction h with
    | base size env s hnew =>
        obtain ⟨hs, hw, hh, _⟩ := new_ok_inv size env s hnew
        rw [hs]
        exact ⟨hw, hh⟩
    | resize s ns _ ih => exact resize_size_pos s ns ih.1 ih.2
    | input s e _ ih => rw [input_size_eq]; exact ih
    | update s _ ih => exact ih
    | render s a _ ih => exact ih
  exact ⟨key, Nat.cast_ne_zero.mpr (Nat.pos_iff_ne_zero.mp key.1),
    Nat.cast_ne_zero.mpr (Nat.pos_iff_ne_zero.mp key.2)⟩

/-- Witness for C8 at the state constructed for an 800×600 window. -/
theorem reachable_size_positive_witness :
    (0 < demoState.size.width ∧ 0 < demoState.size.height) ∧
    ((demoState.size.width : ℚ) ≠ 0 ∧ (demoState.size.height : ℚ) ≠ 0) :=
  reachable_size_positive demoState
    (Reachable.base { width := 800, height := 600 } demoEnv demoState rfl)

/-- C9: every render-context state reachable from a successful construction
keeps the surface configuration's width and height equal to the stored
size's width and height. -/
theorem reachable_config_agrees (s : State) (h : Reachable s) :
    s.surface_config.width = s.size.width ∧
    s.surface_config.height = s.size.height := by
  induction h with
  | base size env s hnew =>
      obtain ⟨hs, _, _, hcw, hch, _⟩ := new_ok_inv size env s hnew
      rw [hs]
      exact ⟨hcw, hch⟩
  | resize s ns _ ih => exact resize_config_agrees s ns ih
  | input s e _ ih => rw [input_size_eq, input_config_eq]; exact ih
  | update s _ ih => exact ih
  | render s a _ ih => exact ih

/-- Witness for C9 at the state constructed for an 800×600 window, moved
through a resize. -/
theorem reachable_config_agrees_witness :
    (demoState.resize { width := 1024, height := 768 }).surface_config.width
        = (demoState.resize { width := 1024, height := 768 }).size.width ∧
    (demoState.resize { width := 1024, height := 768 }).surface_config.height
        = (demoState.resize { width := 1024, height := 768 }).size.height :=
  reachable_config_agrees (demoState.resize { width := 1024, height := 768 })
    (Reachable.resize demoState { width := 1024, height := 768 }
      (Reachable.base { width := 800, height := 600 } demoEnv demoState rfl))

end Wgpu

namespace Wgpu

/-- GPU environment identical to `demoEnv` except the adapter request fails. -/
def envAdapterFail : GpuEnv := { demoEnv with request_adapter_ok := false }

/-- GPU environment identical to `demoEnv` except the device request fails. -/
def envDeviceFail : GpuEnv := { demoEnv with request_device_ok := false }

/-- Environment under which `App::resumed` creates an 800×600 window and
`State::new` succeeds. -/
def demoResumeEnv : ResumeEnv :=
  { create_window_ok := true
    window_inner_size := { width := 800, height := 600 }
    gpu := demoEnv }

/-- C4 (evaluation at the failing input): in the ready 800×600 app, when
`render` reports `SurfaceError::Lost` or `SurfaceError::Outdated`, the
redraw handler calls `resize` with the current stored size, whose same-size
guard makes it a no-op: the app — surface configure log included — is
unchanged, so no surface reconfiguration occurs, and the loop continues
(no exit, next redraw requested). This contradicts the claim that these
variants trigger a reconfigure. -/
theorem redraw_lost_outdated_no_reconfigure :
    appReady.window_event WindowEvent.RedrawRequested
        (Except.error SurfaceError.Lost) =
      (appReady, { Effects.none with redraw_requested := true }) ∧
    appReady.window_event WindowEvent.RedrawRequested
        (Except.error SurfaceError.Outdated) =
      (appReady, { Effects.none with redraw_requested := true }) := by
  constructor <;> decide

/-- C5: while the render context is not yet constructed, a window event
leaves the app unchanged, terminates the event loop exactly when it is a
close request, and any non-close event produces no observable action. -/
theorem window_event_uninitialized (app : App) (event : WindowEvent)
    (rr : Except SurfaceError Unit) (h : app.state = none) :
    (app.window_event event rr).1 = app ∧
    ((app.window_event event rr).2.exit = true ↔
      event = WindowEvent.CloseRequested) ∧
    (event ≠ WindowEvent.CloseRequested →
      (app.window_event event rr).2 = Effects.none) := by
  unfold App.window_event
  rw [h]
  cases event <;> simp [Effects.none]

/-- Witness for C5 at the default (uninitialized) app: a close request and
a non-close event. -/
theorem window_event_uninitialized_witness :
    ((App.default.window_event WindowEvent.CloseRequested (Except.ok ())).1
        = App.default ∧
      ((App.default.window_event WindowEvent.CloseRequested (Except.ok ())).2.exit
          = true ↔ WindowEvent.CloseRequested = WindowEvent.CloseRequested) ∧
      (WindowEvent.CloseRequested ≠ WindowEvent.CloseRequested →
        (App.default.window_event WindowEvent.CloseRequested (Except.ok ())).2
          = Effects.none)) ∧
    ((App.default.window_event (WindowEvent.OtherEvent 0) (Except.ok ())).1
        = App.default ∧
      ((App.default.window_event (WindowEvent.OtherEvent 0) (Except.ok ())).2.exit
          = true ↔ WindowEvent.OtherEvent 0 = WindowEvent.CloseRequested) ∧
      (WindowEvent.OtherEvent 0 ≠ WindowEvent.CloseRequested →
        (App.default.window_event (WindowEvent.OtherEvent 0) (Except.ok ())).2
          = Effects.none)) :=
  ⟨window_event_uninitialized App.default WindowEvent.CloseRequested
      (Except.ok ()) rfl,
    window_event_uninitialized App.default (WindowEvent.OtherEvent 0)
      (Except.ok ()) rfl⟩

/-- C6: the window and the render context are created exactly once: the
initial app has neither; the first resumed signal (when window creation and
construction succeed) creates both; every later resumed signal, seeing a
window already present, returns the app unchanged with no observable
action. -/
theorem resumed_creates_once (env : ResumeEnv) :
    (App.default.window = none ∧ App.default.state = none) ∧
    (∀ s, env.create_window_ok = true →
      (State.new env.window_inner_size env.gpu).1 = NewOutcome.ok s →
      App.default.resumed env =
        ResumedOutcome.ok
          { window := some { inner_size := env.window_inner_size }
            state := some s }
          Effects.none) ∧
    (∀ app w, app.window = some w →
      app.resumed env = ResumedOutcome.ok app Effects.none) := by
  refine ⟨⟨rfl, rfl⟩, ?_, ?_⟩
  · intro s hcw hnew
    have hpair : State.new env.window_inner_size env.gpu =
        (NewOutcome.ok s, (State.new env.window_inner_size env.gpu).2) := by
      rw [← hnew]
    unfold App.resumed
    simp only [App.default, hcw]
    rw [hpair]
    simp
  · intro app w hw
    unfold App.resumed
    rw [hw]

end Wgpu

namespace Wgpu

/-- Witness for C6: the empty default app, a first resumed signal creating
window and context, and a second resumed signal leaving the ready app
unchanged. -/
theorem resumed_creates_once_witness :
    (App.default.window = none ∧ App.default.state = none) ∧
    App.default.resumed demoResumeEnv =
      ResumedOutcome.ok
        { window := some { inner_size := { width := 800, height := 600 } }
          state := some demoState }
        Effects.none ∧
    appReady.resumed demoResumeEnv = ResumedOutcome.ok appReady Effects.none :=
  ⟨(resumed_creates_once demoResumeEnv).1,
    (resumed_creates_once demoResumeEnv).2.1 demoState rfl rfl,
    (resumed_creates_once demoResumeEnv).2.2 appReady
      { inner_size := { width := 800, height := 600 } } rfl⟩

/-- C7: with a positive-size window, a failed adapter request or a failed
device request makes `State::new` panic (aborting the process) instead of
returning through its `Result`; the `Err` return path is taken exactly for
a window with a zero dimension. -/
theorem new_panics_not_errs :
    (∀ size env, size.width ≠ 0 → size.height ≠ 0 →
      env.create_surface_ok = true → env.request_adapter_ok = false →
      (State.new size env).1 = NewOutcome.panicked "request_adapter unwrap") ∧
    (∀ size env, size.width ≠ 0 → size.height ≠ 0 →
      env.create_surface_ok = true → env.request_adapter_ok = true →
      env.request_device_ok = false →
      (State.new size env).1 = NewOutcome.panicked "request_device unwrap") ∧
    (∀ size env, (∃ msg, (State.new size env).1 = NewOutcome.err msg) ↔
      (size.width = 0 ∨ size.height = 0)) := by
  refine ⟨?_, ?_, ?_⟩
  · intro size env hw hh hcs hra
    simp [State.new, hw, hh, hcs, hra]
  · intro size env hw hh hcs hra hrd
    simp [State.new, hw, hh, hcs, hra, hrd]
  · intro size env
    constructor
    · rintro ⟨msg, hmsg⟩
      by_contra h0
      push_neg at h0
      have h0' : ¬(size.width = 0 ∨ size.height = 0) := by
        rintro (hc | hc)
        · exact h0.1 hc
        · exact h0.2 hc
      simp only [State.new] at hmsg
      rw [if_neg h0'] at hmsg
      repeat' split at hmsg
      all_goals simp_all
    · intro h0
      exact ⟨"Pencere boyutu sıfır olamaz.", by simp [State.new, h0]⟩

/-- Witness for C7: an adapter failure and a device failure on an 800×600
window, and the error-path characterization at a 0×600 window. -/
theorem new_panics_not_errs_witness :
    (State.new { width := 800, height := 600 } envAdapterFail).1 =
      NewOutcome.panicked "request_adapter unwrap" ∧
    (State.new { width := 800, height := 600 } envDeviceFail).1 =
      NewOutcome.panicked "request_device unwrap" ∧
    ((∃ msg, (State.new { width := 0, height := 600 } demoEnv).1 =
        NewOutcome.err msg) ↔
      (({ width := 0, height := 600 } : PhysicalSize).width = 0 ∨
        ({ width := 0, height := 600 } : PhysicalSize).height = 0)) :=
  ⟨new_panics_not_errs.1 { width := 800, height := 600 } envAdapterFail
      (by decide) (by decide) rfl rfl,
    new_panics_not_errs.2.1 { width := 800, height := 600 } envDeviceFail
      (by decide) (by decide) rfl rfl rfl,
    new_panics_not_errs.2.2 { width := 0, height := 600 } demoEnv⟩

/-- C10: immediately after a successful construction the clear color is
opaque black: red 0, green 0, blue 0, alpha 1. -/
theorem new_clear_color_black (size : PhysicalSize) (env : GpuEnv) (s : State)
    (h : (State.new size env).1 = NewOutcome.ok s) :
    s.clear_color = { r := 0, g := 0, b := 0, a := 1 } :=
  (new_ok_inv size env s h).2.2.2.2.2.1

/-- Witness for C10 at an 800×600 window. -/
theorem new_clear_color_black_witness :
    demoState.clear_color = { r := 0, g := 0, b := 0, a := 1 } :=
  new_clear_color_black { width := 800, height := 600 } demoEnv demoState rfl

end Wgpu
